import Mathlib

/-!
Verification of the selector-memoization library `combineSelectors` (file
`src/store/combineSelectors.ts` of the SolidRedux repository) against its
specification.

The library manipulates ordinary JavaScript values, whose observable identity
(reference equality, `===` / `Object.is`) matters for the memoization
semantics.  We therefore embed JavaScript values as an inductive type `JVal`
in which objects, arrays and functions carry an explicit identity tag
(a natural number standing for the heap address); primitives compare by
value, exactly as `===` does.  Circular structures are not representable in
an inductive type, which is faithful to every value the library's claims are
about; `JSON.stringify` is total on such values (it never throws on them),
so the `try`/`catch` in `deepEqual` is modelled by totality.

Mutable closure state is modelled by explicit state passing:
  * a memoized selector instance (the closure variables `dependencies` and
    `result` of the inner `selector`) becomes the structure `MemoInstance`
    and the read becomes the state transformer `instRead`;
  * the `selectorCache` map becomes the structure `CombState`; the identity
    of a created state-selector closure is an allocation counter `nextId`,
    so that "the two calls returned the same closure" is expressed as
    "the two calls returned the same id".
A combiner that may throw is modelled as returning `Except Unit`; a pure
combiner is wrapped as `fun ds => Except.ok (f ds)`.
-/

/-- JavaScript runtime values, with explicit identity tags on the reference
types (objects, arrays, functions).  Numbers are modelled as integers, which
covers every value the library's claims mention and avoids floating point. -/
inductive JVal where
  | undef : JVal
  | null : JVal
  | bool : Bool → JVal
  | num : Int → JVal
  | str : String → JVal
  | fn : Nat → JVal
  | arr : Nat → List JVal → JVal
  | obj : Nat → List (String × JVal) → JVal

/-- Reference equality `===` (equivalently `Object.is`; the `NaN`/`-0`
distinctions do not arise for integer numbers): primitives compare by value,
objects, arrays and functions by identity tag. -/
def jsIs : JVal → JVal → Bool
  | JVal.undef, JVal.undef => true
  | JVal.null, JVal.null => true
  | JVal.bool a, JVal.bool b => a == b
  | JVal.num a, JVal.num b => a == b
  | JVal.str a, JVal.str b => a == b
  | JVal.fn i, JVal.fn j => i == j
  | JVal.arr i _, JVal.arr j _ => i == j
  | JVal.obj i _, JVal.obj j _ => i == j
  | _, _ => false

/-- Own enumerable string-keyed entries of a value, as produced by
`Object.keys` indexing: objects expose their fields in insertion order,
arrays expose their elements under the keys "0", "1", ...; every other value
(primitives, `null`, functions) is rejected by the `typeof v !== "object"`
guard of `shallowEqual` and gets `none`. -/
def jsEntries : JVal → Option (List (String × JVal))
  | JVal.obj _ fs => some fs
  | JVal.arr _ xs => some (xs.enum.map (fun p => (toString p.1, p.2)))
  | _ => none

/-- Shallow equality as implemented by react-redux's `shallowEqual`:
`Object.is` first; then both values must be non-null objects with the same
number of keys, and every key of the first must be present in the second
with an `Object.is`-equal value. -/
def shallowEqual (a b : JVal) : Bool :=
  jsIs a b ||
    match jsEntries a, jsEntries b with
    | some ea, some eb =>
      ea.length == eb.length &&
        ea.all (fun kv =>
          match eb.lookup kv.1 with
          | some w => jsIs kv.2 w
          | none => false)
    | _, _ => false

/-- JSON string literal for a string value or an object key.  `JSON.stringify`
escapes the quote and backslash characters (escaping of control characters is
not modelled; no claim involves them). -/
def jsonQuote (s : String) : String :=
  "\x22" ++
    String.join (s.toList.map (fun c =>
      if c = '\x22' || c = '\\' then String.push "\\" c else String.singleton c)) ++
    "\x22"

mutual

/-- Model of `JSON.stringify`, the canonical encoding used both for the
`selectorCache` key and by `deepEqual`.  `none` models the call returning the
JavaScript value `undefined`, which happens exactly when the argument itself
fails to serialize (`undefined` or a function).  Inside an object,
unserializable field values are omitted together with their keys; inside an
array they serialize as `null`.  Object fields are emitted in insertion
order.  On inductive values (no circular references) `JSON.stringify` never
throws, so the function is total. -/
def jsonStringify : JVal → Option String
  | JVal.undef => none
  | JVal.fn _ => none
  | JVal.null => some "null"
  | JVal.bool b => some (if b then "true" else "false")
  | JVal.num n => some (toString n)
  | JVal.str s => some (jsonQuote s)
  | JVal.arr _ xs => some ("[" ++ String.intercalate "," (jsonElems xs) ++ "]")
  | JVal.obj _ fs => some ("\x7b" ++ String.intercalate "," (jsonProps fs) ++ "\x7d")

/-- Serialized forms of the elements of an array: an unserializable element
becomes the literal string "null". -/
def jsonElems : List JVal → List String
  | [] => []
  | v :: rest => (jsonStringify v).getD "null" :: jsonElems rest

/-- Serialized forms of the fields of an object, in insertion order; a field
whose value is unserializable is omitted entirely. -/
def jsonProps : List (String × JVal) → List String
  | [] => []
  | (k, v) :: rest =>
    match jsonStringify v with
    | some s => (jsonQuote k ++ ":" ++ s) :: jsonProps rest
    | none => jsonProps rest

end

/-- Source: lines 66-72 of the library.  `deepEqual` compares the
`JSON.stringify` images with `===`; when both images are the JavaScript value
`undefined` (modelled `none`) the `===` comparison yields `true`.  The
`try`/`catch` returning `false` is unreachable on inductive values, because
`JSON.stringify` only throws on circular structures. -/
def deepEqual (v1 v2 : JVal) : Bool :=
  jsonStringify v1 == jsonStringify v2

/-- Source: the `Options` type of the library (`cached?`, `shallowEquality?`,
`deepEquality?`).  An absent flag is the same as `false`. -/
structure Options where
  cached : Bool := false
  shallowEquality : Bool := false
  deepEquality : Bool := false

/-- Source: lines 74-76.  `checkEqual` is the options-level result equality:
reference equality, or-ed with shallow equality when `shallowEquality` is
set, or-ed with deep equality when `deepEquality` is set (all short-circuit
left to right). -/
def checkEqual (v1 v2 : JVal) (options : Options) : Bool :=
  jsIs v1 v2 || (options.shallowEquality && shallowEqual v1 v2) ||
    (options.deepEquality && deepEqual v1 v2)

/-- An input selector, as consumed by `combineSelectors`: a parameterized
selector `props => state => result`.  The claims treat dependency results
abstractly, so input selectors are modelled as pure functions. -/
abbrev InputSelector := JVal → JVal → JVal

/-- Source: lines 80-87, `applyInputSelectors`: apply each input selector to
the props and the state, in declared order. -/
def applyInputSelectors (inputSelectors : List InputSelector)
    (props state : JVal) : List JVal :=
  inputSelectors.map (fun selector => selector props state)

/-- The closure variables of one memoized selector instance: `dependencies`
and `result` from lines 128-129 of the source.  Both start out as the
JavaScript value `undefined`: `deps = none` models the declared-but-unset
`dependencies` (an `Option` because `shallowEqual` treats the non-object
`undefined` specially), and `result` starts as `JVal.undef`. -/
structure MemoInstance where
  deps : Option (List JVal)
  result : JVal

/-- A fresh instance: both closure variables are still `undefined`. -/
def MemoInstance.init : MemoInstance :=
  { deps := none, result := JVal.undef }

/-- Value of `shallowEqual(newDependencies, dependencies)` at line 135 of the
source.  `newDependencies` is a freshly allocated array, so it is never
reference-equal to the stored one; the two distinct identity tags 0 and 1
encode that freshness.  When `dependencies` is still `undefined`,
`shallowEqual` returns `false` because `undefined` is not an object. -/
def depsEqual (newDeps : List JVal) (old : Option (List JVal)) : Bool :=
  match old with
  | none => false
  | some ds => shallowEqual (JVal.arr 0 newDeps) (JVal.arr 1 ds)

/-- Source: lines 131-150, the body of the inner `selector`, as a state
transformer on the closure variables.  Given the freshly evaluated
dependencies: if they are shallow-equal to the stored ones, return the stored
result and leave the closure untouched; otherwise store the new dependencies
first, then run the combiner (so a throwing combiner, modelled by
`Except.error`, leaves the dependencies updated but the result stale), then
keep the previous result reference whenever `checkEqual` accepts it. -/
def instRead (combiner : List JVal → Except Unit JVal) (options : Options)
    (newDeps : List JVal) (inst : MemoInstance) :
    Except Unit JVal × MemoInstance :=
  if depsEqual newDeps inst.deps then
    (Except.ok inst.result, inst)
  else
    match combiner newDeps with
    | Except.error e =>
      (Except.error e, { deps := some newDeps, result := inst.result })
    | Except.ok newResult =>
      if checkEqual inst.result newResult options then
        (Except.ok inst.result, { deps := some newDeps, result := inst.result })
      else
        (Except.ok newResult, { deps := some newDeps, result := newResult })

/-- One entry of the `selectorCache` map: the `JSON.stringify` key, the
identity of the cached state-selector closure, the props captured by that
closure when it was created, and its current mutable instance state. -/
structure CacheEntry where
  key : Option String
  id : Nat
  props : JVal
  inst : MemoInstance

/-- The mutable state owned by one cached combinator: the `selectorCache`
map (entries in insertion order, keys unique by construction) together with
an allocation counter providing the identity of the next closure. -/
structure CombState where
  nextId : Nat
  entries : List CacheEntry

/-- The state of a freshly built cached combinator: an empty cache. -/
def CombState.init : CombState :=
  { nextId := 0, entries := [] }

/-- Source: lines 122-153, the outer `props =>` function of the cached
branch of `combineSelectors`: compute `key = JSON.stringify(props)`; if the
cache has the key, return the stored closure (its id) unchanged; otherwise
create a fresh instance bound to these props, store it under the key, and
return the new closure's id. -/
def combinatorCall (cs : CombState) (props : JVal) : Nat × CombState :=
  let key := jsonStringify props
  match cs.entries.find? (fun e => e.key == key) with
  | some e => (e.id, cs)
  | none =>
    (cs.nextId,
      { nextId := cs.nextId + 1,
        entries := cs.entries ++
          [{ key := key, id := cs.nextId, props := props,
             inst := MemoInstance.init }] })

/-- Reading a state value through a previously returned state-selector
closure, identified by its id: evaluate the input selectors at the props the
closure captured at creation time, run `instRead`, and store the updated
instance back.  The result is `none` only for an id never returned by
`combinatorCall`. -/
def closureRead (inputSelectors : List InputSelector)
    (combiner : List JVal → Except Unit JVal) (options : Options)
    (cs : CombState) (id : Nat) (state : JVal) :
    Option (Except Unit JVal) × CombState :=
  match cs.entries.find? (fun e => e.id == id) with
  | none => (none, cs)
  | some e =>
    let newDeps := applyInputSelectors inputSelectors e.props state
    let out := instRead combiner options newDeps e.inst
    (some out.1,
      { cs with
        entries := cs.entries.map (fun x =>
          if x.id == id then { x with inst := out.2 } else x) })

/-- Source: line 94, `const cached = options.cached || options.shallowEquality
|| options.deepEquality`. -/
def derivedCached (options : Options) : Bool :=
  options.cached || options.shallowEquality || options.deepEquality

/-- A cached combinator: the data captured by the general branch of
`combineSelectors`, whose behaviour is given by `combinatorCall` and
`closureRead` acting on a `CombState` starting at `CombState.init`. -/
structure CachedCombinator where
  inputSelectors : List InputSelector
  combiner : List JVal → Except Unit JVal
  options : Options

/-- Source: lines 90-154, the top level of `combineSelectors`: when no
caching option is set it returns the uncached fast path, a pure function
that on every call evaluates the input selectors and runs the combiner;
otherwise it returns the cached combinator (whose stateful behaviour is
`combinatorCall` / `closureRead`). -/
def combineSelectors (inputSelectors : List InputSelector)
    (combiner : List JVal → Except Unit JVal) (options : Options) :
    (JVal → JVal → Except Unit JVal) ⊕ CachedCombinator :=
  if derivedCached options then
    Sum.inr
      { inputSelectors := inputSelectors, combiner := combiner,
        options := options }
  else
    Sum.inl (fun props state =>
      let dependencies := applyInputSelectors inputSelectors props state
      let result := combiner dependencies
      result)

/-- Modelled from the spec: the naive composition
`props => state => combiner(...input selectors applied to props then state)`
that the spec declares extensionally equal to a combinator built with no
caching options.  Used only as the comparison point of the refinement claim
about the uncached fast path. -/
def naiveComposition (inputSelectors : List InputSelector)
    (combiner : List JVal → Except Unit JVal) :
    JVal → JVal → Except Unit JVal :=
  fun props state => combiner (inputSelectors.map (fun s => s props state))

/-- Function-valued properties that every plain object (an object literal)
inherits from `Object.prototype`: a read of one of these keys through the
prototype chain yields the inherited function, not `undefined`.  Each entry
gets a reserved function identity.  The accessor property "__proto__" is the
one `Object.prototype` member left unmodelled (it is an accessor, not a data
property, and yields `Object.prototype` itself); no claim mentions it. -/
def objectPrototype : List (String × JVal) :=
  [("constructor", JVal.fn 1000001),
   ("hasOwnProperty", JVal.fn 1000002),
   ("isPrototypeOf", JVal.fn 1000003),
   ("propertyIsEnumerable", JVal.fn 1000004),
   ("toLocaleString", JVal.fn 1000005),
   ("toString", JVal.fn 1000006),
   ("valueOf", JVal.fn 1000007),
   ("__defineGetter__", JVal.fn 1000008),
   ("__defineSetter__", JVal.fn 1000009),
   ("__lookupGetter__", JVal.fn 1000010),
   ("__lookupSetter__", JVal.fn 1000011)]

/-- Property read `o[key]` on a plain object: the own field if present,
otherwise the property inherited from `Object.prototype` if any, otherwise
`undefined`. -/
def getProperty (fs : List (String × JVal)) (key : String) : JVal :=
  match fs.lookup key with
  | some v => v
  | none =>
    match objectPrototype.lookup key with
    | some v => v
    | none => JVal.undef

/-- Source: lines 164-166, `selectArgument`: `key => props => () =>
props[key]`.  The bound state-selector ignores the state; property access on
a plain object reads the own field, falling back to the `Object.prototype`
chain, and yields `undefined` only when neither provides the key.  The typed
API (`props: Record<K, T>`) only ever supplies a plain object as `props`, so
the catch-all case is unreachable through it (JavaScript would throw on
`null`/`undefined` and box other primitives; no claim quantifies over
non-object props, and no theorem below relies on the catch-all). -/
def selectArgument (key : String) : JVal → JVal → JVal :=
  fun props _state =>
    match props with
    | JVal.obj _ fs => getProperty fs key
    | _ => JVal.undef

/-- Source: line 170, `selectRoot`: ignores the props and returns the whole
state. -/
def selectRoot : JVal → JVal → JVal :=
  fun _props state => state

/-- Whether a value is the JavaScript value `undefined`. -/
def JVal.isUndef : JVal → Bool
  | JVal.undef => true
  | _ => false

/-- Unfolding of `combinatorCall` when the cache already holds the key. -/
theorem combinatorCall_hit (cs : CombState) (props : JVal) (e : CacheEntry)
    (h : cs.entries.find? (fun x => x.key == jsonStringify props) = some e) :
    combinatorCall cs props = (e.id, cs) := by
  unfold combinatorCall
  simp only [h]

/-- Unfolding of `combinatorCall` when the key is absent: a fresh entry is
appended and the fresh closure id is returned. -/
theorem combinatorCall_miss (cs : CombState) (props : JVal)
    (h : cs.entries.find? (fun x => x.key == jsonStringify props) = none) :
    combinatorCall cs props =
      (cs.nextId,
        { nextId := cs.nextId + 1,
          entries := cs.entries ++
            [{ key := jsonStringify props, id := cs.nextId, props := props,
               inst := MemoInstance.init }] }) := by
  unfold combinatorCall
  simp only [h]

/-- Two consecutive calls whose props have the same `JSON.stringify` encoding
return the same closure id, and the second call leaves the cache unchanged. -/
theorem combinatorCall_same_key (cs : CombState) (p1 p2 : JVal)
    (h : jsonStringify p1 = jsonStringify p2) :
    (combinatorCall (combinatorCall cs p1).2 p2).1 = (combinatorCall cs p1).1 ∧
    (combinatorCall (combinatorCall cs p1).2 p2).2 = (combinatorCall cs p1).2 := by
  have hpred : (fun (e : CacheEntry) => e.key == jsonStringify p2) =
      (fun (e : CacheEntry) => e.key == jsonStringify p1) := by rw [h]
  cases hfind : cs.entries.find? (fun e => e.key == jsonStringify p1) with
  | some e =>
    have h1 := combinatorCall_hit cs p1 e hfind
    have h2 := combinatorCall_hit cs p2 e (by rw [hpred]; exact hfind)
    rw [h1, h2]
    exact ⟨rfl, rfl⟩
  | none =>
    have h1 := combinatorCall_miss cs p1 hfind
    rw [h1]
    have hfind2 :
        (cs.entries ++
          [{ key := jsonStringify p1, id := cs.nextId, props := p1,
             inst := MemoInstance.init : CacheEntry }]).find?
          (fun e => e.key == jsonStringify p2) =
        some { key := jsonStringify p1, id := cs.nextId, props := p1,
               inst := MemoInstance.init } := by
      rw [hpred, List.find?_append, hfind]
      simp [List.find?]
    have h2 := combinatorCall_hit
      { nextId := cs.nextId + 1,
        entries := cs.entries ++
          [{ key := jsonStringify p1, id := cs.nextId, props := p1,
             inst := MemoInstance.init }] } p2
      { key := jsonStringify p1, id := cs.nextId, props := p1,
        inst := MemoInstance.init } hfind2
    rw [h2]
    exact ⟨rfl, rfl⟩

/-- C1: on a read where the instance is initialized and the freshly evaluated
dependency sequence is shallow-equal to the stored one (same length, each
element reference-equal), the state-selector returns the stored previous
result reference unchanged, leaving the instance untouched; the right-hand
side mentions neither the combiner nor the options, so the combiner is not
invoked and the options-level `checkEqual` is not performed, whatever the
`CachingOptions` flags are. -/
theorem c1_memo_hit_returns_stored (combiner : List JVal → Except Unit JVal)
    (options : Options) (newDeps : List JVal) (inst : MemoInstance)
    (h : depsEqual newDeps inst.deps = true) :
    instRead combiner options newDeps inst = (Except.ok inst.result, inst) := by
  simp [instRead, h]

/-- Witness for C1 at a concrete initialized instance, with a combiner that
would throw and with every caching flag set. -/
theorem c1_witness :
    depsEqual [JVal.num 1] (some [JVal.num 1]) = true ∧
    instRead (fun _ => Except.error ()) (Options.mk true true true) [JVal.num 1]
      (MemoInstance.mk (some [JVal.num 1]) (JVal.str "r")) =
      (Except.ok (JVal.str "r"), MemoInstance.mk (some [JVal.num 1]) (JVal.str "r")) :=
  ⟨by decide,
    c1_memo_hit_returns_stored (fun _ => Except.error ()) (Options.mk true true true)
      [JVal.num 1] (MemoInstance.mk (some [JVal.num 1]) (JVal.str "r")) (by decide)⟩

/-- C2 counterexample: the argument set holding a function under key "a" and
the empty argument set are two distinct argument sets, yet they have the same
canonical encoding, and calling the cached combinator with the first and then
the second silently returns the same stored state-selector (same closure id,
cache unchanged) instead of raising any error: `JSON.stringify` succeeds on
the function-valued argument set, silently dropping that entry, so no
explicit combinator-boundary error is ever produced and two distinct
argument sets end up stored under one key. -/
theorem c2_counterexample :
    jsonStringify (JVal.obj 0 [("a", JVal.fn 7)]) = jsonStringify (JVal.obj 1 []) ∧
    (combinatorCall (combinatorCall CombState.init (JVal.obj 0 [("a", JVal.fn 7)])).2
        (JVal.obj 1 [])).1 =
      (combinatorCall CombState.init (JVal.obj 0 [("a", JVal.fn 7)])).1 ∧
    (combinatorCall (combinatorCall CombState.init (JVal.obj 0 [("a", JVal.fn 7)])).2
        (JVal.obj 1 [])).2 =
      (combinatorCall CombState.init (JVal.obj 0 [("a", JVal.fn 7)])).2 :=
  ⟨rfl, rfl, rfl⟩

/-- C2 amended: an argument set containing a function-valued (hence
unserializable) entry is not rejected at the combinator boundary: its
canonical encoding succeeds with that entry silently omitted, so the call is
keyed — and its bound state-selector shared — exactly like the same argument
set without the entry, and distinct argument sets with equal encodings are
silently stored under one key.  (Circular argument structures, on which
`JSON.stringify` itself throws an uncaught `TypeError`, are not
representable in this embedding and are outside this theorem's scope.) -/
theorem c2_amended_nonserializable_silently_shared (cs : CombState)
    (i j fid : Nat) (k : String) (fs : List (String × JVal)) :
    jsonStringify (JVal.obj i ((k, JVal.fn fid) :: fs)) =
      jsonStringify (JVal.obj j fs) ∧
    (combinatorCall (combinatorCall cs (JVal.obj j fs)).2
        (JVal.obj i ((k, JVal.fn fid) :: fs))).1 =
      (combinatorCall cs (JVal.obj j fs)).1 ∧
    (combinatorCall (combinatorCall cs (JVal.obj j fs)).2
        (JVal.obj i ((k, JVal.fn fid) :: fs))).2 =
      (combinatorCall cs (JVal.obj j fs)).2 := by
  have h : jsonStringify (JVal.obj i ((k, JVal.fn fid) :: fs)) =
      jsonStringify (JVal.obj j fs) := rfl
  exact ⟨h, combinatorCall_same_key cs (JVal.obj j fs)
    (JVal.obj i ((k, JVal.fn fid) :: fs)) h.symm⟩

/-- C3: two calls to a cached combinator with argument sets whose canonical
encodings are equal return the same bound state-selector (the same closure
id), and the second call leaves the whole cache — in particular the entry
created on first use, with its memoization state — unchanged. -/
theorem c3_equal_encoding_same_selector (cs : CombState) (p1 p2 : JVal)
    (h : jsonStringify p1 = jsonStringify p2) :
    (combinatorCall (combinatorCall cs p1).2 p2).1 = (combinatorCall cs p1).1 ∧
    (combinatorCall (combinatorCall cs p1).2 p2).2 = (combinatorCall cs p1).2 :=
  combinatorCall_same_key cs p1 p2 h

/-- Witness for C3 at two distinct-identity argument objects with the same
field, starting from the empty cache. -/
theorem c3_witness :
    jsonStringify (JVal.obj 0 [("x", JVal.num 1)]) =
      jsonStringify (JVal.obj 1 [("x", JVal.num 1)]) ∧
    ((combinatorCall (combinatorCall CombState.init (JVal.obj 0 [("x", JVal.num 1)])).2
        (JVal.obj 1 [("x", JVal.num 1)])).1 =
      (combinatorCall CombState.init (JVal.obj 0 [("x", JVal.num 1)])).1 ∧
    (combinatorCall (combinatorCall CombState.init (JVal.obj 0 [("x", JVal.num 1)])).2
        (JVal.obj 1 [("x", JVal.num 1)])).2 =
      (combinatorCall CombState.init (JVal.obj 0 [("x", JVal.num 1)])).2) :=
  ⟨rfl,
    c3_equal_encoding_same_selector CombState.init (JVal.obj 0 [("x", JVal.num 1)])
      (JVal.obj 1 [("x", JVal.num 1)]) rfl⟩

/-- C4 counterexample: with both `shallowEquality` and `deepEquality` set, a
newly computed result that is not reference-equal and not shallow-equal but
deep-equal to the stored one is discarded and the previous reference is
returned — so deep equality IS consulted after shallow equality fails,
whereas the claim says that with both flags set deep equality is never
consulted (which would make the read store and return the new result). -/
theorem c4_counterexample :
    jsIs (JVal.obj 0 [("a", JVal.obj 1 [("b", JVal.num 1)])])
      (JVal.obj 2 [("a", JVal.obj 3 [("b", JVal.num 1)])]) = false ∧
    shallowEqual (JVal.obj 0 [("a", JVal.obj 1 [("b", JVal.num 1)])])
      (JVal.obj 2 [("a", JVal.obj 3 [("b", JVal.num 1)])]) = false ∧
    deepEqual (JVal.obj 0 [("a", JVal.obj 1 [("b", JVal.num 1)])])
      (JVal.obj 2 [("a", JVal.obj 3 [("b", JVal.num 1)])]) = true ∧
    checkEqual (JVal.obj 0 [("a", JVal.obj 1 [("b", JVal.num 1)])])
      (JVal.obj 2 [("a", JVal.obj 3 [("b", JVal.num 1)])])
      (Options.mk true true true) = true ∧
    instRead (fun _ => Except.ok (JVal.obj 2 [("a", JVal.obj 3 [("b", JVal.num 1)])]))
      (Options.mk true true true) [JVal.num 9]
      (MemoInstance.mk (some [JVal.num 8])
        (JVal.obj 0 [("a", JVal.obj 1 [("b", JVal.num 1)])])) =
      (Except.ok (JVal.obj 0 [("a", JVal.obj 1 [("b", JVal.num 1)])]),
        MemoInstance.mk (some [JVal.num 9])
          (JVal.obj 0 [("a", JVal.obj 1 [("b", JVal.num 1)])])) :=
  ⟨rfl, rfl, rfl, rfl, rfl⟩

/-- C4 amended: on a cached read where the dependencies changed, the new
result is compared to the previous stored result by reference equality, or-ed
with shallow equality when `shallowEquality` is set, or-ed with deep equality
when `deepEquality` is set (checked in that order, short-circuit; with both
flags set, deep equality is still consulted when shallow fails); if the
combined check passes the previous reference is kept and returned, otherwise
the new result is stored and returned, and in either case the stored
dependencies become the new sequence. -/
theorem c4_amended_result_equality_policy (f : List JVal → JVal)
    (options : Options) (newDeps : List JVal) (inst : MemoInstance)
    (h : depsEqual newDeps inst.deps = false) :
    instRead (fun ds => Except.ok (f ds)) options newDeps inst =
      if jsIs inst.result (f newDeps) ||
          (options.shallowEquality && shallowEqual inst.result (f newDeps)) ||
          (options.deepEquality && deepEqual inst.result (f newDeps)) then
        (Except.ok inst.result, MemoInstance.mk (some newDeps) inst.result)
      else
        (Except.ok (f newDeps), MemoInstance.mk (some newDeps) (f newDeps)) := by
  simp [instRead, h, checkEqual]

/-- Witness for C4 amended: dependencies changed, no equality check passes,
so the new result is stored and returned. -/
theorem c4_amended_witness :
    depsEqual [JVal.num 2] (some [JVal.num 1]) = false ∧
    instRead (fun _ => Except.ok (JVal.num 5)) (Options.mk true true false)
      [JVal.num 2] (MemoInstance.mk (some [JVal.num 1]) (JVal.num 7)) =
      (if jsIs (JVal.num 7) (JVal.num 5) ||
          ((Options.mk true true false).shallowEquality &&
            shallowEqual (JVal.num 7) (JVal.num 5)) ||
          ((Options.mk true true false).deepEquality &&
            deepEqual (JVal.num 7) (JVal.num 5)) then
        (Except.ok (JVal.num 7), MemoInstance.mk (some [JVal.num 2]) (JVal.num 7))
      else
        (Except.ok (JVal.num 5), MemoInstance.mk (some [JVal.num 2]) (JVal.num 5))) :=
  ⟨by decide,
    c4_amended_result_equality_policy (fun _ => JVal.num 5) (Options.mk true true false)
      [JVal.num 2] (MemoInstance.mk (some [JVal.num 1]) (JVal.num 7)) (by decide)⟩

/-- C5 counterexample: two distinct functions are both unserializable
(`JSON.stringify` yields the absent result on each), yet `deepEqual` reports
them EQUAL — the claim says an unserializable value must make the strategy
report not-equal. -/
theorem c5_counterexample :
    jsonStringify (JVal.fn 0) = none ∧ jsonStringify (JVal.fn 1) = none ∧
    deepEqual (JVal.fn 0) (JVal.fn 1) = true :=
  ⟨rfl, rfl, rfl⟩

/-- C5 amended: `deepEqual` returns true exactly when the `JSON.stringify`
images of the two values are equal, where an unserializable value serializes
to the absent result (so two top-level unserializable values compare equal);
it is total — in particular reflexive — and never throws: the `try`/`catch`
guarding serialization can only fire on circular structures, which inductive
values exclude. -/
theorem c5_amended_deep_equality_via_serialization (v1 v2 : JVal) :
    (deepEqual v1 v2 = true ↔ jsonStringify v1 = jsonStringify v2) ∧
    deepEqual v1 v1 = true := by
  constructor
  · simp [deepEqual]
  · simp [deepEqual]

/-- C6 counterexample: the same keys bound to the same values in a different
property-insertion order produce DIFFERENT canonical encodings, and the
cached combinator therefore hands out a different state-selector for the
reordered argument set instead of treating it as the same cache key. -/
theorem c6_counterexample :
    jsonStringify (JVal.obj 0 [("a", JVal.num 1), ("b", JVal.num 2)]) ≠
      jsonStringify (JVal.obj 0 [("b", JVal.num 2), ("a", JVal.num 1)]) ∧
    (combinatorCall
        (combinatorCall CombState.init
          (JVal.obj 0 [("a", JVal.num 1), ("b", JVal.num 2)])).2
        (JVal.obj 0 [("b", JVal.num 2), ("a", JVal.num 1)])).1 ≠
      (combinatorCall CombState.init
        (JVal.obj 0 [("a", JVal.num 1), ("b", JVal.num 2)])).1 :=
  ⟨by decide, by decide⟩

/-- C6 amended: the canonical encoding is `JSON.stringify` in
property-insertion order: it is deterministic and independent of object
identity, so two argument sets with the same keys and values in the SAME
insertion order encode equally and are treated as the same cache key (same
closure id, cache untouched by the second call); different insertion orders
may encode differently and then get distinct cache entries. -/
theorem c6_amended_same_order_same_key (cs : CombState) (i j : Nat)
    (fs : List (String × JVal)) :
    jsonStringify (JVal.obj i fs) = jsonStringify (JVal.obj j fs) ∧
    (combinatorCall (combinatorCall cs (JVal.obj i fs)).2 (JVal.obj j fs)).1 =
      (combinatorCall cs (JVal.obj i fs)).1 ∧
    (combinatorCall (combinatorCall cs (JVal.obj i fs)).2 (JVal.obj j fs)).2 =
      (combinatorCall cs (JVal.obj i fs)).2 :=
  ⟨rfl, combinatorCall_same_key cs (JVal.obj i fs) (JVal.obj j fs) rfl⟩

/-- C7: a combinator built with no caching option at all is the uncached fast
path, and that fast path is extensionally the naive composition
`props => state => combiner(...input selectors applied to props then state)`;
being a pure function value (no `CombState`, no instance), it evaluates the
input selectors and invokes the combiner anew on every read and shares
nothing across calls or argument sets. -/
theorem c7_no_options_is_naive_composition (inputSelectors : List InputSelector)
    (combiner : List JVal → Except Unit JVal) (options : Options)
    (h : derivedCached options = false) :
    combineSelectors inputSelectors combiner options =
      Sum.inl (naiveComposition inputSelectors combiner) := by
  unfold combineSelectors
  rw [h]
  rfl

/-- Witness for C7 with all options absent (falsy). -/
theorem c7_witness :
    derivedCached (Options.mk false false false) = false ∧
    combineSelectors [selectRoot] (fun ds => Except.ok (JVal.arr 9 ds))
      (Options.mk false false false) =
      Sum.inl (naiveComposition [selectRoot] (fun ds => Except.ok (JVal.arr 9 ds))) :=
  ⟨rfl,
    c7_no_options_is_naive_composition [selectRoot]
      (fun ds => Except.ok (JVal.arr 9 ds)) (Options.mk false false false) rfl⟩

/-- C8 counterexample: the key "toString" is absent from the empty argument
mapping, yet `selectArgument("toString")({})` applied to a state yields the
function inherited from `Object.prototype` — a non-undefined value — so the
universally quantified "for every key k ... yields undefined" fails. -/
theorem c8_counterexample :
    ([] : List (String × JVal)).lookup "toString" = none ∧
    selectArgument "toString" (JVal.obj 0 []) JVal.null = JVal.fn 1000006 ∧
    (selectArgument "toString" (JVal.obj 0 []) JVal.null).isUndef = false :=
  ⟨rfl, rfl, rfl⟩

/-- C8 amended: for every key that the argument mapping lacks AND that
`Object.prototype` does not provide, `selectArgument key` applied to the
mapping and then to any state yields `undefined` with no error path; for
keys `Object.prototype` provides (toString, valueOf, hasOwnProperty, ...),
the inherited value is returned instead; and on argument mappings the bound
state-selector ignores the state entirely — its value depends only on the
argument mapping. -/
theorem c8_amended_noninherited_missing_argument (key : String) (oid : Nat)
    (fs : List (String × JVal)) (state : JVal)
    (h1 : fs.lookup key = none) (h2 : objectPrototype.lookup key = none) :
    selectArgument key (JVal.obj oid fs) state = JVal.undef ∧
    (∀ oid2 fs2 s1 s2, selectArgument key (JVal.obj oid2 fs2) s1 =
      selectArgument key (JVal.obj oid2 fs2) s2) := by
  refine ⟨?_, fun oid2 fs2 s1 s2 => rfl⟩
  simp [selectArgument, getProperty, h1, h2]

/-- Witness for C8 amended: the "todoId" projection on the empty argument
set ("todoId" is not an `Object.prototype` key), read against a null state. -/
theorem c8_amended_witness :
    (([] : List (String × JVal)).lookup "todoId" = none ∧
      objectPrototype.lookup "todoId" = none) ∧
    selectArgument "todoId" (JVal.obj 0 []) JVal.null = JVal.undef :=
  ⟨⟨rfl, rfl⟩,
    (c8_amended_noninherited_missing_argument "todoId" 0 [] JVal.null rfl rfl).1⟩

/-- C9: when the dependencies changed, the instance stores the new dependency
sequence BEFORE the combiner runs, so a throwing combiner (modelled by
`Except.error`) leaves the dependencies updated while the result is stale;
a subsequent read whose dependencies are pairwise reference-equal to the new
sequence then takes the memoization path and returns the stale previous
result — `JVal.undef` when the failure happened on the first read — with a
right-hand side independent of the second read's combiner and options. -/
theorem c9_throwing_combiner_stale_result
    (c c2 : List JVal → Except Unit JVal) (opts opts2 : Options)
    (inst : MemoInstance) (newDeps newDeps2 : List JVal) (e : Unit)
    (h1 : depsEqual newDeps inst.deps = false)
    (h2 : c newDeps = Except.error e)
    (h3 : depsEqual newDeps2 (some newDeps) = true) :
    instRead c opts newDeps inst =
      (Except.error e, MemoInstance.mk (some newDeps) inst.result) ∧
    instRead c2 opts2 newDeps2 (MemoInstance.mk (some newDeps) inst.result) =
      (Except.ok inst.result, MemoInstance.mk (some newDeps) inst.result) := by
  constructor
  · simp [instRead, h1, h2]
  · simp [instRead, h3]

/-- Witness for C9: a first read on a fresh instance whose combiner throws,
followed by a read with reference-equal dependencies, which returns the stale
`undefined` without running the (now succeeding) combiner. -/
theorem c9_witness :
    depsEqual [JVal.num 1] MemoInstance.init.deps = false ∧
    depsEqual [JVal.num 1] (some [JVal.num 1]) = true ∧
    (instRead (fun _ => Except.error ()) (Options.mk true false false) [JVal.num 1]
        MemoInstance.init =
      (Except.error (), MemoInstance.mk (some [JVal.num 1]) JVal.undef) ∧
    instRead (fun _ => Except.ok (JVal.num 3)) (Options.mk false true false) [JVal.num 1]
        (MemoInstance.mk (some [JVal.num 1]) JVal.undef) =
      (Except.ok JVal.undef, MemoInstance.mk (some [JVal.num 1]) JVal.undef)) :=
  ⟨by decide, by decide,
    c9_throwing_combiner_stale_result (fun _ => Except.error ())
      (fun _ => Except.ok (JVal.num 3)) (Options.mk true false false)
      (Options.mk false true false) MemoInstance.init [JVal.num 1] [JVal.num 1] ()
      (by decide) rfl (by decide)⟩

/-- Serialization of an object's field list only depends on the tail through
its own serialization. -/
theorem jsonProps_congr_tail (k : String) (v : JVal) (l1 l2 : List (String × JVal))
    (h : jsonProps l1 = jsonProps l2) :
    jsonProps ((k, v) :: l1) = jsonProps ((k, v) :: l2) := by
  simp only [jsonProps, h]

/-- Helper for C10: omitting the fields bound to `undefined` does not change
the serialized field list, because `JSON.stringify` already skips them. -/
theorem jsonProps_filter_undef (fs : List (String × JVal)) :
    jsonProps (fs.filter (fun kv => !kv.2.isUndef)) = jsonProps fs := by
  induction fs with
  | nil => rfl
  | cons kv rest ih =>
    obtain ⟨k, v⟩ := kv
    cases v with
    | undef => exact ih
    | null => exact jsonProps_congr_tail k JVal.null _ _ ih
    | bool b => exact jsonProps_congr_tail k (JVal.bool b) _ _ ih
    | num n => exact jsonProps_congr_tail k (JVal.num n) _ _ ih
    | str s => exact jsonProps_congr_tail k (JVal.str s) _ _ ih
    | fn i2 => exact jsonProps_congr_tail k (JVal.fn i2) _ _ ih
    | arr i2 xs => exact jsonProps_congr_tail k (JVal.arr i2 xs) _ _ ih
    | obj i2 fs2 => exact jsonProps_congr_tail k (JVal.obj i2 fs2) _ _ ih

/-- C10: two argument sets that differ only in keys bound to `undefined`
(their non-undefined fields agree, e.g. the empty set versus one binding
"todoId" to `undefined`) have the same canonical encoding, hence share the
same cache key: the second call returns the same bound state-selector id and
leaves the cache — and with it the shared memoization state — unchanged. -/
theorem c10_undefined_valued_keys_share_entry (cs : CombState) (i j : Nat)
    (fs1 fs2 : List (String × JVal))
    (h : fs1.filter (fun kv => !kv.2.isUndef) = fs2.filter (fun kv => !kv.2.isUndef)) :
    jsonStringify (JVal.obj i fs1) = jsonStringify (JVal.obj j fs2) ∧
    (combinatorCall (combinatorCall cs (JVal.obj i fs1)).2 (JVal.obj j fs2)).1 =
      (combinatorCall cs (JVal.obj i fs1)).1 ∧
    (combinatorCall (combinatorCall cs (JVal.obj i fs1)).2 (JVal.obj j fs2)).2 =
      (combinatorCall cs (JVal.obj i fs1)).2 := by
  have hp : jsonProps fs1 = jsonProps fs2 := by
    rw [← jsonProps_filter_undef fs1, ← jsonProps_filter_undef fs2, h]
  have henc : jsonStringify (JVal.obj i fs1) = jsonStringify (JVal.obj j fs2) := by
    simp only [jsonStringify, hp]
  exact ⟨henc, combinatorCall_same_key cs (JVal.obj i fs1) (JVal.obj j fs2) henc⟩

/-- Witness for C10: the empty argument set versus the set binding "todoId"
to `undefined`, starting from the empty cache. -/
theorem c10_witness :
    (([("todoId", JVal.undef)] : List (String × JVal)).filter (fun kv => !kv.2.isUndef) =
      (([] : List (String × JVal)).filter (fun kv => !kv.2.isUndef))) ∧
    (jsonStringify (JVal.obj 0 [("todoId", JVal.undef)]) = jsonStringify (JVal.obj 1 []) ∧
    (combinatorCall (combinatorCall CombState.init (JVal.obj 0 [("todoId", JVal.undef)])).2
        (JVal.obj 1 [])).1 =
      (combinatorCall CombState.init (JVal.obj 0 [("todoId", JVal.undef)])).1 ∧
    (combinatorCall (combinatorCall CombState.init (JVal.obj 0 [("todoId", JVal.undef)])).2
        (JVal.obj 1 [])).2 =
      (combinatorCall CombState.init (JVal.obj 0 [("todoId", JVal.undef)])).2) :=
  ⟨rfl,
    c10_undefined_valued_keys_share_entry CombState.init 0 1
      [("todoId", JVal.undef)] [] rfl⟩
